import Mathlib

/-!
Verification development for the FIR (First Information Report) auto-writing
backend: the BIO-tag entity-aggregation state machine of
`Backend/nlp_service.py` (`NLPService.extract_entities`) and the
multi-strategy offence classification chain of
`Backend/classification_service.py` (`ClassificationService`).

Modelling conventions:
  * Python strings are Lean `String`s; Python `str` helpers (`lower`,
    `strip`, `replace`, `startswith`, substring `in`) are given explicit
    executable translations over `List Char` below.
  * Python floats are modelled as `ℚ` (the code only compares, averages,
    divides and normalizes scores; IEEE rounding is abstracted away).
  * The external transformer capabilities (token classification,
    zero-shot entailment, sentence embedding + softmax) are black boxes
    per the system's scoping: they appear as function parameters; the
    in-repository logic consuming their outputs is translated faithfully.
-/

set_option maxRecDepth 100000

namespace FIR

/-! ## String helpers (models of the Python `str` builtins used) -/

/-- Boolean prefix test on character lists (model of Python `startswith`). -/
def isPrefixOfB : List Char → List Char → Bool
  | [], _ => true
  | _ :: _, [] => false
  | a :: as, b :: bs => a == b && isPrefixOfB as bs

/-- Substring containment (model of Python's `needle in hay`). -/
def containsSubB (pat : List Char) : List Char → Bool
  | [] => pat.isEmpty
  | c :: cs => isPrefixOfB pat (c :: cs) || containsSubB pat cs

/-- Fuel-indexed scanner for `replaceFuel`; the fuel bounds the number of
scan steps so the recursion is structural (and hence kernel-evaluable).
With `fuel = l.length` it performs the full left-to-right scan. -/
def replaceFuel (pat rep : List Char) : Nat → List Char → List Char
  | _, [] => []
  | 0, l => l
  | fuel + 1, c :: cs =>
    if pat ≠ [] ∧ isPrefixOfB pat (c :: cs) then
      rep ++ replaceFuel pat rep fuel ((c :: cs).drop pat.length)
    else
      c :: replaceFuel pat rep fuel cs

/-- Left-to-right non-overlapping replacement of `pat` by `rep`
(model of Python `str.replace`; the source never calls it with an
empty pattern, for which this is the identity). -/
def replaceList (pat rep : List Char) (l : List Char) : List Char :=
  replaceFuel pat rep l.length l

def strReplace (s pat rep : String) : String :=
  ⟨replaceList pat.data rep.data s.data⟩

def isWsChar (c : Char) : Bool :=
  c == ' ' || c == '\t' || c == '\n' || c == '\r'

/-- Model of Python `str.strip()`. -/
def strTrim (s : String) : String :=
  ⟨((s.data.dropWhile isWsChar).reverse.dropWhile isWsChar).reverse⟩

/-- Model of Python `str.lower()`. -/
def strToLower (s : String) : String :=
  ⟨s.data.map Char.toLower⟩

/-- Model of Python `s.startswith(p)`. -/
def strStartsWith (s p : String) : Bool :=
  isPrefixOfB p.data s.data

/-- Model of Python `pat in s` (substring test). -/
def strContainsSub (s pat : String) : Bool :=
  containsSubB pat.data s.data

/-! ## Entity aggregation (`NLPService.extract_entities`) -/

/-- One token-level model prediction: surface form, raw BIO tag
(e.g. `"B-PER"`, `"I-LOC"`, `"O"`), and per-token confidence. -/
structure Tok where
  surface : String
  tag : String
  conf : ℚ
deriving DecidableEq, Repr

/-- The three output entity lists of `extract_entities`. -/
structure Entities where
  persons : List String
  locations : List String
  organizations : List String
deriving DecidableEq, Repr

/-- The mutable scan state of the aggregation loop:
`current_entity`, `current_text`, `current_scores` plus the
`entities` dict being filled. -/
structure AggState where
  entities : Entities
  cur : Option String
  curText : List String
  curScores : List ℚ
deriving DecidableEq, Repr

/-- Special tokens skipped by the loop (`['[CLS]', '[SEP]', '[PAD]']`). -/
def specialTokens : List String := ["[CLS]", "[SEP]", "[PAD]"]

/-- Python truthiness of the `current_entity` variable
(`None` and `""` are falsy). -/
def truthyOptStr : Option String → Bool
  | some s => !(s == "")
  | none => false

/-- `sum(current_scores) / len(current_scores) if current_scores else 0`. -/
def avgScore (scrs : List ℚ) : ℚ :=
  if scrs.isEmpty then 0 else scrs.sum / (scrs.length : ℚ)

/-- The entity surface built at a flush:
`tokenizer.convert_tokens_to_string(current_text).strip().replace(' ##', '')`.
The (external) BERT tokenizer's `convert_tokens_to_string` joins tokens
with single spaces and merges wordpiece continuations by deleting `" ##"`;
per the system contract, sub-word continuation markers are merged without
inserted spaces and all other boundaries joined with single spaces. -/
def spanSurface (toks : List String) : String :=
  strReplace (strTrim (strReplace (String.intercalate " " toks) " ##" "")) " ##" ""

/-- Entity type extracted from a raw label:
`current_entity.replace("B-", "").replace("I-", "")`. -/
def etypeOf (lab : String) : String :=
  strReplace (strReplace lab "B-" "") "I-" ""

/-- The span-flush block the source repeats at every boundary: join the
accumulated tokens, average the confidences, and append to the matching
output list when the surface is nonempty, the average confidence is at
least 0.5, and (per routed type) the surface is longer than 1 character. -/
def flushSpan (ents : Entities) (lab : String) (toks : List String)
    (scrs : List ℚ) : Entities :=
  let entity_text := spanSurface toks
  let avg := avgScore scrs
  if entity_text ≠ "" ∧ 1/2 ≤ avg then
    let etype := etypeOf lab
    if etype = "PER" ∧ 1 < entity_text.length then
      { ents with persons := ents.persons ++ [entity_text] }
    else if etype = "LOC" ∧ 1 < entity_text.length then
      { ents with locations := ents.locations ++ [entity_text] }
    else if etype = "ORG" ∧ 1 < entity_text.length then
      { ents with organizations := ents.organizations ++ [entity_text] }
    else ents
  else ents

/-- One iteration of the aggregation loop, parameterized by the flush
routine so that flush-policy variants can be compared. -/
def nerStepGen (flush : Entities → String → List String → List ℚ → Entities)
    (st : AggState) (t : Tok) : AggState :=
  if t.surface ∈ specialTokens then st
  else if strStartsWith t.tag "B-" then
    let ents :=
      if truthyOptStr st.cur && !st.curText.isEmpty then
        flush st.entities (st.cur.getD "") st.curText st.curScores
      else st.entities
    ⟨ents, some t.tag, [t.surface], [t.conf]⟩
  else if strStartsWith t.tag "I-" && truthyOptStr st.cur then
    let lab := st.cur.getD ""
    let entity_type_current := strReplace t.tag "I-" ""
    let entity_type_prev := etypeOf lab
    if entity_type_current = entity_type_prev then
      ⟨st.entities, st.cur, st.curText ++ [t.surface], st.curScores ++ [t.conf]⟩
    else
      let ents :=
        if !st.curText.isEmpty then flush st.entities lab st.curText st.curScores
        else st.entities
      ⟨ents, some t.tag, [t.surface], [t.conf]⟩
  else
    let ents :=
      if truthyOptStr st.cur && !st.curText.isEmpty then
        flush st.entities (st.cur.getD "") st.curText st.curScores
      else st.entities
    ⟨ents, none, [], []⟩

/-- The actual loop body of `extract_entities`. -/
def nerStep : AggState → Tok → AggState :=
  nerStepGen flushSpan

/-- Worker for `dedupFirst`: keeps an element only when it has not been
seen before (the set of already-inserted keys of the dict being built). -/
def dedupAux (seen : List String) : List String → List String
  | [] => []
  | x :: xs => if x ∈ seen then dedupAux seen xs else x :: dedupAux (x :: seen) xs

/-- Order-preserving first-occurrence deduplication
(model of `list(dict.fromkeys(xs))`). -/
def dedupFirst (l : List String) : List String :=
  dedupAux [] l

/-- The scan plus the final flush, before deduplication. -/
def rawEntitiesGen (flush : Entities → String → List String → List ℚ → Entities)
    (toks : List Tok) : Entities :=
  let fin := toks.foldl (nerStepGen flush) ⟨⟨[], [], []⟩, none, [], []⟩
  if truthyOptStr fin.cur && !fin.curText.isEmpty then
    flush fin.entities (fin.cur.getD "") fin.curText fin.curScores
  else fin.entities

/-- `extract_entities`, parameterized by the flush routine. -/
def extractGen (flush : Entities → String → List String → List ℚ → Entities)
    (toks : List Tok) : Entities :=
  let ents := rawEntitiesGen flush toks
  ⟨dedupFirst ents.persons, dedupFirst ents.locations, dedupFirst ents.organizations⟩

/-- Pre-deduplication emission lists of `extract_entities`. -/
def rawEntities : List Tok → Entities :=
  rawEntitiesGen flushSpan

/-- `NLPService.extract_entities`, acting on the token-level predictions
returned by the external NER model. -/
def extract_entities : List Tok → Entities :=
  extractGen flushSpan

/-! ## Classification (`ClassificationService`) -/

/-- `ClassificationResult`: label, confidence, and the full score
distribution (Python dicts are insertion-ordered association lists). -/
structure ClassificationResult where
  label : String
  confidence : ℚ
  all_scores : List (String × ℚ)
deriving DecidableEq, Repr

/-- Keyword list of the `"Theft"` category. -/
def theftKeywords : List String :=
  ["theft", "robbery", "burglary", "stealing", "larceny",
   "snatching", "pickpocket", "shoplifting", "vehicle theft",
   "property stolen", "belongings taken", "valuables missing"]

/-- Keyword list of the `"Assault"` category. -/
def assaultKeywords : List String :=
  ["assault", "physical attack", "beating", "violence", "fight",
   "bodily harm", "injury", "hit", "punch", "kick", "attack",
   "murder", "attempted murder", "grievous hurt", "manslaughter"]

/-- Keyword list of the `"Cyber Crime"` category. -/
def cyberKeywords : List String :=
  ["cyber crime", "online fraud", "hacking", "phishing", "identity theft",
   "social media fraud", "facebook scam", "instagram fraud", "online scam",
   "data breach", "ransomware", "cyber stalking", "online harassment",
   "bank account hacked", "upi fraud", "credit card fraud", "otp fraud"]

/-- Keyword list of the `"Cheating"` category. -/
def cheatingKeywords : List String :=
  ["cheating", "fraud", "deception", "scam", "con",
   "financial fraud", "money fraud", "fake documents", "forgery",
   "embezzlement", "misappropriation", "breach of trust", "ponzi scheme"]

/-- Keyword list of the `"Harassment"` category. -/
def harassmentKeywords : List String :=
  ["harassment", "stalking", "threatening", "intimidation", "bullying",
   "sexual harassment", "workplace harassment", "domestic violence",
   "eve teasing", "dowry harassment", "mental torture", "abuse"]

/-- Keyword list of the `"Other"` category. -/
def otherKeywords : List String :=
  ["other crime", "miscellaneous", "general complaint", "unknown offence"]

/-- `OFFENCE_CATEGORIES`: the fixed keyword table, in insertion order. -/
def OFFENCE_CATEGORIES : List (String × List String) :=
  [("Theft", theftKeywords),
   ("Assault", assaultKeywords),
   ("Cyber Crime", cyberKeywords),
   ("Cheating", cheatingKeywords),
   ("Harassment", harassmentKeywords),
   ("Other", otherKeywords)]

/-- The six canonical category labels, in table order. -/
def canonicalCategories : List String :=
  ["Theft", "Assault", "Cyber Crime", "Cheating", "Harassment", "Other"]

/-- `ZERO_SHOT_LABELS`: the candidate label phrases handed to the external
zero-shot entailment capability. -/
def ZERO_SHOT_LABELS : List String :=
  ["theft or robbery or stealing",
   "physical assault or violence or attack",
   "cyber crime or online fraud or hacking",
   "cheating or fraud or scam",
   "harassment or stalking or threatening",
   "other criminal activity"]

/-- `LABEL_MAPPING.get(label, "Other")`. -/
def labelMapping (l : String) : String :=
  if l = "theft or robbery or stealing" then "Theft"
  else if l = "physical assault or violence or attack" then "Assault"
  else if l = "cyber crime or online fraud or hacking" then "Cyber Crime"
  else if l = "cheating or fraud or scam" then "Cheating"
  else if l = "harassment or stalking or threatening" then "Harassment"
  else if l = "other criminal activity" then "Other"
  else "Other"

/-- `kw.lower() in text_lower` for one keyword, against the pre-lowered
complaint text. -/
def kwMatch (textLower : String) (kw : String) : Bool :=
  strContainsSub textLower (strToLower kw)

/-- The per-category raw scores of `_classify_fallback`:
`match_count / len(keywords) if keywords else 0`, in table order. -/
def rawScores (text : String) : List (String × ℚ) :=
  OFFENCE_CATEGORIES.map fun p =>
    (p.1,
      if p.2.isEmpty then 0
      else ((p.2.filter (kwMatch (strToLower text))).length : ℚ) / (p.2.length : ℚ))

/-- The normalization step of `_classify_fallback`: divide by the total
when it is positive, otherwise set the `"Other"` entry to 1.0. -/
def normalizeScores (scores : List (String × ℚ)) : List (String × ℚ) :=
  let total := (scores.map Prod.snd).sum
  if 0 < total then scores.map fun p => (p.1, p.2 / total)
  else scores.map fun p => if p.1 = "Other" then (p.1, (1 : ℚ)) else p

/-- Python's `max(scores, key=scores.get)` over an insertion-ordered dict,
paired with the value looked up afterwards: the first entry whose value is
maximal (`max` only replaces the running best on a strict increase). -/
def pyMaxPair : List (String × ℚ) → String × ℚ
  | [] => ("", 0)
  | p :: ps => ps.foldl (fun best q => if best.2 < q.2 then q else best) p

/-- `ClassificationService._classify_fallback`. -/
def classify_fallback (text : String) : ClassificationResult :=
  let scores := normalizeScores (rawScores text)
  let top := pyMaxPair scores
  if top.2 < 1/5 then ⟨"Other", 1/2, scores⟩
  else ⟨top.1, top.2, scores⟩

/-- The raw output of the external zero-shot pipeline: parallel lists of
candidate label phrases and scores (sorted descending by the capability's
contract, which is a hypothesis where needed, not assumed here). -/
structure ZSRaw where
  labels : List String
  scores : List ℚ
deriving Repr

/-- One assignment `scores[key] = v` into an insertion-ordered dict:
overwrite in place when the key exists, else append. -/
def dictInsert (l : List (String × ℚ)) (k : String) (v : ℚ) : List (String × ℚ) :=
  if k ∈ l.map Prod.fst then l.map fun p => if p.1 = k then (k, v) else p
  else l ++ [(k, v)]

/-- Building a dict by successive assignments (the
`for label, score in zip(...): scores[mapped_label] = score` loop). -/
def dictOfPairs (l : List (String × ℚ)) : List (String × ℚ) :=
  l.foldl (fun acc p => dictInsert acc p.1 p.2) []

/-- The result assembly of `_classify_zero_shot` after a successful call
to the external pipeline. Indexing `result['labels'][0]` /
`result['scores'][0]` raises on empty lists, which the surrounding
`except` turns into a fallback classification. -/
def zsBuild (raw : ZSRaw) (text : String) : ClassificationResult :=
  match raw.labels, raw.scores with
  | l0 :: _, s0 :: _ =>
    let scores := dictOfPairs ((raw.labels.zip raw.scores).map fun p => (labelMapping p.1, p.2))
    ⟨labelMapping l0, s0, scores⟩
  | _, _ => classify_fallback text

/-- `ClassificationService._classify_zero_shot`: the external entailment
capability either yields a raw labels/scores response or throws; a throw
is caught and degraded to `_classify_fallback`. -/
def classify_zero_shot (cap : String → Except String ZSRaw) (text : String) :
    ClassificationResult :=
  match cap text with
  | .ok raw => zsBuild raw text
  | .error _ => classify_fallback text

/-- `ClassificationService._classify_similarity`: the external embedding,
cosine-similarity and softmax computation is a black-box numeric
capability producing one probability per category (softmax preserves the
key set and the argmax); the in-code part keeps the `category_embeddings`
key order — the table order — and picks `max(scores, key=scores.get)`.
A throw is caught and degraded to `_classify_fallback`. -/
def classify_similarity (cap : String → Except String (String → ℚ)) (text : String) :
    ClassificationResult :=
  match cap text with
  | .ok probs =>
    let scores := OFFENCE_CATEGORIES.map fun p => (p.1, probs p.1)
    let top := pyMaxPair scores
    ⟨top.1, top.2, scores⟩
  | .error _ => classify_fallback text

/-- The latched state of `ClassificationService` after `_load_models`:
which external capabilities were successfully loaded. -/
structure ClassificationService where
  classifier : Option (String → Except String ZSRaw)
  sentence_model : Option (String → Except String (String → ℚ))

/-- `ClassificationService.classify`: dispatch on the latched strategy. -/
def classify (s : ClassificationService) (text : String) : ClassificationResult :=
  match s.classifier with
  | some cap => classify_zero_shot cap text
  | none =>
    match s.sentence_model with
    | some cap => classify_similarity cap text
    | none => classify_fallback text

/-- `ClassificationService.get_confidence_level`. -/
def get_confidence_level (confidence : ℚ) : String :=
  if 4/5 ≤ confidence then "High"
  else if 1/2 ≤ confidence then "Medium"
  else "Low"

/-- Comparison definition for the spec's confidence floor: the flush
policy with the floor made an explicit leading guard, dropping any span
whose average confidence is below 0.5 before any further processing.
`extractGen flushFloor` versus `extract_entities` expresses that no
sub-floor span ever contributes to the output. -/
def flushFloor (ents : Entities) (lab : String) (toks : List String)
    (scrs : List ℚ) : Entities :=
  if avgScore scrs < 1/2 then ents else flushSpan ents lab toks scrs

/-! ## Helper lemmas -/

lemma flushSpan_discard (ents : Entities) (lab : String) (toks : List String)
    (scrs : List ℚ)
    (h : spanSurface toks = "" ∨ (spanSurface toks).length ≤ 1 ∨ avgScore scrs < 1/2) :
    flushSpan ents lab toks scrs = ents := by
  simp only [flushSpan]
  rcases h with h | h | h
  · rw [if_neg]
    intro hc
    exact hc.1 h
  · split
    · next hc =>
      have hlen : ¬ 1 < (spanSurface toks).length := by omega
      rw [if_neg, if_neg, if_neg]
      · intro hp; exact hlen hp.2
      · intro hp; exact hlen hp.2
      · intro hp; exact hlen hp.2
    · rfl
  · rw [if_neg]
    intro hc
    exact absurd hc.2 (not_le.mpr h)

lemma flushFloor_eq_flushSpan : flushFloor = flushSpan := by
  funext ents lab toks scrs
  unfold flushFloor
  split
  · next h => exact (flushSpan_discard ents lab toks scrs (Or.inr (Or.inr h))).symm
  · rfl

lemma dedupAux_sublist (seen : List String) (l : List String) :
    List.Sublist (dedupAux seen l) l := by
  induction l generalizing seen with
  | nil => simp [dedupAux]
  | cons x xs ih =>
    unfold dedupAux
    split
    · exact (ih seen).cons x
    · exact (ih (x :: seen)).cons₂ x

lemma not_mem_dedupAux (seen : List String) (l : List String) (x : String)
    (hx : x ∈ seen) : x ∉ dedupAux seen l := by
  induction l generalizing seen with
  | nil => simp [dedupAux]
  | cons y ys ih =>
    unfold dedupAux
    split
    · exact ih seen hx
    · next hy =>
      intro hmem
      rcases List.mem_cons.mp hmem with rfl | hmem
      · exact hy hx
      · exact ih (y :: seen) (List.mem_cons_of_mem y hx) hmem

lemma dedupAux_nodup (seen : List String) (l : List String) :
    (dedupAux seen l).Nodup := by
  induction l generalizing seen with
  | nil => simp [dedupAux]
  | cons y ys ih =>
    unfold dedupAux
    split
    · exact ih seen
    · exact List.nodup_cons.mpr
        ⟨not_mem_dedupAux (y :: seen) ys y (List.mem_cons_self y seen), ih (y :: seen)⟩

lemma dedupFirst_sublist (l : List String) : List.Sublist (dedupFirst l) l :=
  dedupAux_sublist [] l

lemma dedupFirst_nodup (l : List String) : (dedupFirst l).Nodup :=
  dedupAux_nodup [] l

/-! ## Claim theorems: entity aggregation -/

/-- Claim C9: on the token sequence John/B-PER/0.9, ##son/I-PER/0.85,
robbed/O/0.99, near/O/0.9, Delhi/B-LOC/0.95, aggregation returns
persons = ["Johnson"], locations = ["Delhi"], organizations = [] — the
sub-word continuation is merged without an inserted space. -/
theorem extract_entities_johnson_delhi :
    extract_entities
      [⟨"John", "B-PER", 9/10⟩, ⟨"##son", "I-PER", 17/20⟩,
       ⟨"robbed", "O", 99/100⟩, ⟨"near", "O", 9/10⟩, ⟨"Delhi", "B-LOC", 19/20⟩] =
    ⟨["Johnson"], ["Delhi"], []⟩ := by
  with_unfolding_all decide

/-- Claim C10: a continuation tag `I-T` arriving while no span is open is
silently discarded — the step neither opens a span nor touches the output
lists, and the aggregator stays Idle. -/
theorem nerStep_continuation_while_idle (ents : Entities) (t : Tok)
    (hsp : t.surface ∉ specialTokens)
    (hb : strStartsWith t.tag "B-" = false)
    (hi : strStartsWith t.tag "I-" = true) :
    nerStep ⟨ents, none, [], []⟩ t = ⟨ents, none, [], []⟩ := by
  simp [nerStep, nerStepGen, hsp, hb, hi, truthyOptStr]

/-- Claim C10 witness. -/
theorem nerStep_continuation_while_idle_witness :
    nerStep ⟨⟨["A"], [], []⟩, none, [], []⟩ ⟨"Delhi", "I-LOC", 19/20⟩ =
      ⟨⟨["A"], [], []⟩, none, [], []⟩ :=
  nerStep_continuation_while_idle ⟨["A"], [], []⟩ ⟨"Delhi", "I-LOC", 19/20⟩
    (by decide) (by decide) (by decide)

/-- Claim C4: a continuation tag `I-T` arriving while a span of a
different type is open flushes the open span under its own label and
opens a new span seeded with the arriving token and confidence — the
mismatched continuation acts as an implicit begin. -/
theorem nerStep_mismatched_continuation (ents : Entities) (lab : String)
    (ct : List String) (cs : List ℚ) (t : Tok)
    (hsp : t.surface ∉ specialTokens)
    (hb : strStartsWith t.tag "B-" = false)
    (hi : strStartsWith t.tag "I-" = true)
    (hlab : lab ≠ "")
    (hety : strReplace t.tag "I-" "" ≠ etypeOf lab) :
    nerStep ⟨ents, some lab, ct, cs⟩ t =
      ⟨(if ct.isEmpty then ents else flushSpan ents lab ct cs),
        some t.tag, [t.surface], [t.conf]⟩ := by
  simp only [nerStep, nerStepGen, hsp, if_false, hb, hi, truthyOptStr,
    Option.getD_some, beq_iff_eq, hlab, not_false_eq_true, Bool.not_true,
    Bool.and_self, if_neg hety]
  split
  · next h => exact absurd h (by simp)
  · next _ =>
    rw [if_pos (by simp [hlab])]
    cases hct : ct.isEmpty <;> simp [hct]

/-- Claim C4 witness. -/
theorem nerStep_mismatched_continuation_witness :
    nerStep ⟨⟨[], [], []⟩, some "B-PER", ["John"], [9/10]⟩ ⟨"Delhi", "I-LOC", 19/20⟩ =
      ⟨⟨["John"], [], []⟩, some "I-LOC", ["Delhi"], [19/20]⟩ := by
  have h := nerStep_mismatched_continuation ⟨[], [], []⟩ "B-PER" ["John"] [9/10]
    ⟨"Delhi", "I-LOC", 19/20⟩ (by decide) (by decide) (by decide) (by decide)
    (by with_unfolding_all decide)
  rw [h]
  with_unfolding_all decide

/-- Claim C2: a flushed span is discarded when its joined surface is
empty, has length at most one character, or its average confidence is
below 0.5; a span whose average is exactly 0.5 (and passes the surface
checks) is kept, for each of the three routed types; and the whole
aggregation is unchanged when sub-floor spans are explicitly dropped, so
no entity with average span confidence below 0.5 ever appears in any
output list. -/
theorem flush_discard_and_confidence_floor
    (e1 : Entities) (l1 : String) (t1 : List String) (s1 : List ℚ)
    (e2 : Entities) (l2 : String) (t2 : List String) (s2 : List ℚ)
    (e3 : Entities) (l3 : String) (t3 : List String) (s3 : List ℚ)
    (e4 : Entities) (l4 : String) (t4 : List String) (s4 : List ℚ)
    (ts : List Tok)
    (h1 : spanSurface t1 = "" ∨ (spanSurface t1).length ≤ 1 ∨ avgScore s1 < 1/2)
    (h2a : avgScore s2 = 1/2) (h2b : 1 < (spanSurface t2).length) (h2c : etypeOf l2 = "PER")
    (h3a : avgScore s3 = 1/2) (h3b : 1 < (spanSurface t3).length) (h3c : etypeOf l3 = "LOC")
    (h4a : avgScore s4 = 1/2) (h4b : 1 < (spanSurface t4).length) (h4c : etypeOf l4 = "ORG") :
    flushSpan e1 l1 t1 s1 = e1
    ∧ flushSpan e2 l2 t2 s2 = { e2 with persons := e2.persons ++ [spanSurface t2] }
    ∧ flushSpan e3 l3 t3 s3 = { e3 with locations := e3.locations ++ [spanSurface t3] }
    ∧ flushSpan e4 l4 t4 s4 = { e4 with organizations := e4.organizations ++ [spanSurface t4] }
    ∧ extract_entities ts = extractGen flushFloor ts := by
  have hne : ∀ t : List String, 1 < (spanSurface t).length → spanSurface t ≠ "" := by
    intro t hlen hs
    rw [hs] at hlen
    exact absurd hlen (by decide)
  refine ⟨flushSpan_discard e1 l1 t1 s1 h1, ?_, ?_, ?_, ?_⟩
  · simp only [flushSpan]
    rw [if_pos ⟨hne t2 h2b, by rw [h2a]⟩, if_pos ⟨h2c, h2b⟩]
  · simp only [flushSpan]
    rw [if_pos ⟨hne t3 h3b, by rw [h3a]⟩,
      if_neg (fun hp => by rw [h3c] at hp; exact absurd hp.1 (by decide)),
      if_pos ⟨h3c, h3b⟩]
  · simp only [flushSpan]
    rw [if_pos ⟨hne t4 h4b, by rw [h4a]⟩,
      if_neg (fun hp => by rw [h4c] at hp; exact absurd hp.1 (by decide)),
      if_neg (fun hp => by rw [h4c] at hp; exact absurd hp.1 (by decide)),
      if_pos ⟨h4c, h4b⟩]
  · rw [extract_entities, flushFloor_eq_flushSpan]

/-- Claim C2 witness. -/
theorem flush_discard_and_confidence_floor_witness :
    flushSpan ⟨[], [], []⟩ "B-PER" ["Jo"] [1/4] = ⟨[], [], []⟩
    ∧ flushSpan ⟨[], [], []⟩ "B-PER" ["Ram", "##esh"] [2/5, 3/5] = ⟨["Ramesh"], [], []⟩
    ∧ flushSpan ⟨[], [], []⟩ "I-LOC" ["Delhi"] [1/2] = ⟨[], ["Delhi"], []⟩
    ∧ flushSpan ⟨[], [], []⟩ "B-ORG" ["Infosys"] [1/2, 1/2] = ⟨[], [], ["Infosys"]⟩
    ∧ extract_entities [⟨"Goa", "B-LOC", 1/4⟩] = extractGen flushFloor [⟨"Goa", "B-LOC", 1/4⟩] := by
  have h := flush_discard_and_confidence_floor
    ⟨[], [], []⟩ "B-PER" ["Jo"] [1/4]
    ⟨[], [], []⟩ "B-PER" ["Ram", "##esh"] [2/5, 3/5]
    ⟨[], [], []⟩ "I-LOC" ["Delhi"] [1/2]
    ⟨[], [], []⟩ "B-ORG" ["Infosys"] [1/2, 1/2]
    [⟨"Goa", "B-LOC", 1/4⟩]
    (by right; right; with_unfolding_all decide)
    (by with_unfolding_all decide) (by with_unfolding_all decide) (by with_unfolding_all decide)
    (by with_unfolding_all decide) (by with_unfolding_all decide) (by with_unfolding_all decide)
    (by with_unfolding_all decide) (by with_unfolding_all decide) (by with_unfolding_all decide)
  obtain ⟨g1, g2, g3, g4, g5⟩ := h
  refine ⟨g1, ?_, ?_, ?_, g5⟩
  · rw [g2]; with_unfolding_all decide
  · rw [g3]; with_unfolding_all decide
  · rw [g4]; with_unfolding_all decide

/-- Claim C8: aggregation is a pure function of the token sequence (hence
deterministic); each output list is the order-preserving first-occurrence
deduplication of the corresponding raw emission list, so it is duplicate
free and a subsequence of the raw emissions. -/
theorem aggregate_dedup_nodup_order (ts : List Tok) :
    extract_entities ts =
      ⟨dedupFirst (rawEntities ts).persons, dedupFirst (rawEntities ts).locations,
       dedupFirst (rawEntities ts).organizations⟩
    ∧ (extract_entities ts).persons.Nodup
    ∧ (extract_entities ts).locations.Nodup
    ∧ (extract_entities ts).organizations.Nodup
    ∧ List.Sublist (extract_entities ts).persons (rawEntities ts).persons
    ∧ List.Sublist (extract_entities ts).locations (rawEntities ts).locations
    ∧ List.Sublist (extract_entities ts).organizations (rawEntities ts).organizations := by
  refine ⟨rfl, ?_, ?_, ?_, ?_, ?_, ?_⟩
  · exact dedupFirst_nodup _
  · exact dedupFirst_nodup _
  · exact dedupFirst_nodup _
  · exact dedupFirst_sublist _
  · exact dedupFirst_sublist _
  · exact dedupFirst_sublist _

/-! ## Helper lemmas: classification -/

lemma length_normalizeScores (l : List (String × ℚ)) :
    (normalizeScores l).length = l.length := by
  simp only [normalizeScores]
  split <;> simp

lemma map_fst_normalizeScores (l : List (String × ℚ)) :
    (normalizeScores l).map Prod.fst = l.map Prod.fst := by
  simp only [normalizeScores]
  split
  · simp [List.map_map]
  · simp only [List.map_map]
    apply List.map_congr_left
    intro p _
    by_cases h : p.1 = "Other" <;> simp [h, Function.comp]

lemma map_fst_rawScores (t : String) :
    (rawScores t).map Prod.fst = canonicalCategories := by
  simp [rawScores, OFFENCE_CATEGORIES, canonicalCategories]

lemma length_rawScores (t : String) : (rawScores t).length = 6 := by
  simp [rawScores, OFFENCE_CATEGORIES]

lemma fallback_scores_ne_nil (t : String) :
    normalizeScores (rawScores t) ≠ [] := by
  intro h
  have := length_normalizeScores (rawScores t)
  rw [h, length_rawScores] at this
  exact absurd this (by decide)

lemma fallback_all_scores (t : String) :
    (classify_fallback t).all_scores = normalizeScores (rawScores t) := by
  simp only [classify_fallback]
  split <;> rfl

lemma foldl_max_spec (ps : List (String × ℚ)) (b : String × ℚ) :
    ps.foldl (fun best q => if best.2 < q.2 then q else best) b ∈ b :: ps
    ∧ b.2 ≤ (ps.foldl (fun best q => if best.2 < q.2 then q else best) b).2
    ∧ ∀ q ∈ ps, q.2 ≤ (ps.foldl (fun best q => if best.2 < q.2 then q else best) b).2 := by
  induction ps generalizing b with
  | nil => simp
  | cons q qs ih =>
    simp only [List.foldl_cons]
    obtain ⟨hmem, hle, hall⟩ := ih (if b.2 < q.2 then q else b)
    have hb : b.2 ≤ (if b.2 < q.2 then q else b).2 := by
      split
      · next h => exact le_of_lt h
      · exact le_refl _
    have hq : q.2 ≤ (if b.2 < q.2 then q else b).2 := by
      split
      · next h => exact le_refl _
      · next h => exact le_of_not_lt h
    refine ⟨?_, le_trans hb hle, ?_⟩
    · rcases List.mem_cons.mp hmem with h | h
      · rw [h]
        split
        · next => exact List.mem_cons_of_mem _ (List.mem_cons_self _ _)
        · next => exact List.mem_cons_self _ _
      · exact List.mem_cons_of_mem _ (List.mem_cons_of_mem _ h)
    · intro p hp
      rcases List.mem_cons.mp hp with h | h
      · rw [h]; exact le_trans hq hle
      · exact hall p h

lemma pyMaxPair_mem (l : List (String × ℚ)) (h : l ≠ []) : pyMaxPair l ∈ l := by
  match l with
  | p :: ps => exact (foldl_max_spec ps p).1

lemma pyMaxPair_ge (l : List (String × ℚ)) (p : String × ℚ) (hp : p ∈ l) :
    p.2 ≤ (pyMaxPair l).2 := by
  match l with
  | q :: qs =>
    rcases List.mem_cons.mp hp with h | h
    · rw [h]; exact (foldl_max_spec qs q).2.1
    · exact (foldl_max_spec qs q).2.2 p h

lemma dictOfPairs_foldl_append (l acc : List (String × ℚ))
    (h : ((acc ++ l).map Prod.fst).Nodup) :
    l.foldl (fun a p => dictInsert a p.1 p.2) acc = acc ++ l := by
  induction l generalizing acc with
  | nil => simp
  | cons p ps ih =>
    have hk : p.1 ∉ acc.map Prod.fst := by
      intro hmem
      rw [List.map_append, List.nodup_append] at h
      exact h.2.2 hmem (by simp)
    have hins : dictInsert acc p.1 p.2 = acc ++ [p] := by
      rw [dictInsert, if_neg hk]
    rw [List.foldl_cons, hins, ih (acc ++ [p]) (by simpa using h)]
    simp

lemma dictOfPairs_eq_self (l : List (String × ℚ))
    (h : (l.map Prod.fst).Nodup) : dictOfPairs l = l := by
  have := dictOfPairs_foldl_append l [] (by simpa using h)
  simpa [dictOfPairs] using this

/-! ## Claim theorems: classification -/

/-- Claim C6: when the keyword scan matches nothing (all six raw scores
zero), the fallback assigns probability mass 1.0 to "Other" instead of
dividing by zero and returns label "Other" with confidence 1.0; and the
below-0.2 override path also lands on label "Other" — both paths produce
"Other". -/
theorem fallback_zero_matches_other (t1 t2 : String)
    (h1 : rawScores t1 =
      [("Theft", 0), ("Assault", 0), ("Cyber Crime", 0),
       ("Cheating", 0), ("Harassment", 0), ("Other", 0)])
    (h2 : (pyMaxPair (normalizeScores (rawScores t2))).2 < 1/5) :
    (classify_fallback t1).label = "Other"
    ∧ (classify_fallback t1).confidence = 1
    ∧ (classify_fallback t1).all_scores =
        [("Theft", 0), ("Assault", 0), ("Cyber Crime", 0),
         ("Cheating", 0), ("Harassment", 0), ("Other", 1)]
    ∧ (classify_fallback t2).label = "Other" := by
  have e1 : classify_fallback t1 =
      ⟨"Other", 1,
        [("Theft", 0), ("Assault", 0), ("Cyber Crime", 0),
         ("Cheating", 0), ("Harassment", 0), ("Other", 1)]⟩ := by
    simp only [classify_fallback]
    rw [h1]
    with_unfolding_all decide
  have e2 : (classify_fallback t2).label = "Other" := by
    simp only [classify_fallback]
    rw [if_pos h2]
  exact ⟨by rw [e1], by rw [e1], by rw [e1], e2⟩

/-- Claim C6 witness: the empty text matches no keyword; the second text
matches near-uniformly across all six categories, driving the top
normalized score below 0.2. -/
theorem fallback_zero_matches_other_witness :
    (classify_fallback "").label = "Other"
    ∧ (classify_fallback "").confidence = 1
    ∧ (classify_fallback "").all_scores =
        [("Theft", 0), ("Assault", 0), ("Cyber Crime", 0),
         ("Cheating", 0), ("Harassment", 0), ("Other", 1)]
    ∧ (classify_fallback "robbery burglary larceny murder manslaughter beating violence hacking phishing ransomware cyber stalking deception forgery embezzlement intimidation bullying miscellaneous").label = "Other" :=
  fallback_zero_matches_other ""
    "robbery burglary larceny murder manslaughter beating violence hacking phishing ransomware cyber stalking deception forgery embezzlement intimidation bullying miscellaneous"
    (by with_unfolding_all decide) (by with_unfolding_all decide)

/-- Claim C3 counterexample: on the text "theft stolen" the claimed
confidence formula (2/12 divided by the total of the raw scores) does not
hold — "stolen" alone is not a table keyword (only the phrase
"property stolen" is), so the Theft raw score is 1/12, the total is 1/12,
and the returned confidence is 1, not (2/12)/(1/12) = 2. -/
theorem fallback_theft_stolen_counterexample :
    (classify_fallback "theft stolen").label = "Theft"
    ∧ (classify_fallback "theft stolen").confidence = 1
    ∧ ((rawScores "theft stolen").map Prod.snd).sum = 1/12
    ∧ (classify_fallback "theft stolen").confidence ≠
        (2/12) / ((rawScores "theft stolen").map Prod.snd).sum := by
  with_unfolding_all decide

/-- Claim C3 (amended): for a text containing "stolen" whose only keyword
match across the whole fixed table is the single keyword "theft" (the
standalone word "stolen" is not in the table; only the phrase
"property stolen" is), the fallback returns label "Theft" with
confidence (1/12) divided by the total of all categories' raw scores,
which equals 1. -/
theorem fallback_theft_stolen_amended (text : String)
    (hst : strContainsSub (strToLower text) "stolen" = true)
    (hm : ∀ p ∈ OFFENCE_CATEGORIES, ∀ kw ∈ p.2,
      kwMatch (strToLower text) kw = (kw == "theft")) :
    (classify_fallback text).label = "Theft"
    ∧ (classify_fallback text).confidence = 1
    ∧ (classify_fallback text).confidence =
        (1/12) / ((rawScores text).map Prod.snd).sum := by
  have hT := hm ("Theft", theftKeywords) (by decide)
  have hA := hm ("Assault", assaultKeywords) (by decide)
  have hC := hm ("Cyber Crime", cyberKeywords) (by decide)
  have hCh := hm ("Cheating", cheatingKeywords) (by decide)
  have hH := hm ("Harassment", harassmentKeywords) (by decide)
  have hO := hm ("Other", otherKeywords) (by decide)
  have hraw : rawScores text =
      [("Theft", 1/12), ("Assault", 0), ("Cyber Crime", 0),
       ("Cheating", 0), ("Harassment", 0), ("Other", 0)] := by
    simp only [rawScores, OFFENCE_CATEGORIES, List.map]
    rw [List.filter_congr hT, List.filter_congr hA, List.filter_congr hC,
      List.filter_congr hCh, List.filter_congr hH, List.filter_congr hO]
    with_unfolding_all decide
  have e1 : classify_fallback text =
      ⟨"Theft", 1,
        [("Theft", 1), ("Assault", 0), ("Cyber Crime", 0),
         ("Cheating", 0), ("Harassment", 0), ("Other", 0)]⟩ := by
    simp only [classify_fallback]
    rw [hraw]
    with_unfolding_all decide
  refine ⟨by rw [e1], by rw [e1], ?_⟩
  rw [e1, hraw]
  with_unfolding_all decide

/-- Claim C3 (amended) witness: the concrete text "theft stolen". -/
theorem fallback_theft_stolen_amended_witness :
    (classify_fallback "theft stolen").confidence = 1
    ∧ (classify_fallback "theft stolen").confidence =
        (1/12) / ((rawScores "theft stolen").map Prod.snd).sum := by
  have h := fallback_theft_stolen_amended "theft stolen"
    (by with_unfolding_all decide) (by with_unfolding_all decide)
  exact ⟨h.2.1, h.2.2⟩

/-- Claim C7: classification never surfaces a strategy failure — when the
latched zero-shot capability throws on a call, that single call degrades
to the keyword fallback while the latch (the service state, which
`classify` never mutates) keeps dispatching later calls to zero-shot; the
same per-call degradation holds for the embedding-similarity strategy. -/
theorem classify_calltime_degradation
    (s1 : ClassificationService) (t1 t1b : String)
    (cap1 : String → Except String ZSRaw) (e1 : String)
    (s2 : ClassificationService) (t2 : String)
    (cap2 : String → Except String (String → ℚ)) (e2 : String)
    (hs1 : s1.classifier = some cap1) (hc1 : cap1 t1 = .error e1)
    (hs2c : s2.classifier = none) (hs2 : s2.sentence_model = some cap2)
    (hc2 : cap2 t2 = .error e2) :
    classify s1 t1 = classify_fallback t1
    ∧ classify s1 t1b = classify_zero_shot cap1 t1b
    ∧ classify s2 t2 = classify_fallback t2 := by
  refine ⟨?_, ?_, ?_⟩
  · simp [classify, hs1, classify_zero_shot, hc1]
  · simp [classify, hs1]
  · simp [classify, hs2c, hs2, classify_similarity, hc2]

/-- Claim C7 witness: concrete failing capabilities. -/
theorem classify_calltime_degradation_witness :
    classify ⟨some fun _ => .error "down", none⟩ "texta" = classify_fallback "texta"
    ∧ classify ⟨some fun _ => .error "down", none⟩ "textb" =
        classify_zero_shot (fun _ => .error "down") "textb"
    ∧ classify ⟨none, some fun _ => .error "oom"⟩ "textc" = classify_fallback "textc" :=
  classify_calltime_degradation
    ⟨some fun _ => .error "down", none⟩ "texta" "textb" (fun _ => .error "down") "down"
    ⟨none, some fun _ => .error "oom"⟩ "textc" (fun _ => .error "oom") "oom"
    rfl rfl rfl rfl rfl

/-- Claim C5: every strategy's `all_scores` carries exactly the six
canonical category labels as keys, for any input text (including the
empty string): the fallback and similarity strategies produce them in
table order; the zero-shot strategy produces a permutation of them
whenever the external pipeline returns scores for the six candidate
phrases. -/
theorem all_scores_six_categories
    (t1 : String)
    (cap2 : String → Except String (String → ℚ)) (t2 : String)
    (cap3 : String → Except String ZSRaw) (t3 : String) (raw : ZSRaw)
    (h3 : cap3 t3 = .ok raw)
    (hperm : raw.labels.Perm ZERO_SHOT_LABELS)
    (hlen : raw.labels.length = raw.scores.length) :
    (classify_fallback t1).all_scores.map Prod.fst = canonicalCategories
    ∧ (classify_similarity cap2 t2).all_scores.map Prod.fst = canonicalCategories
    ∧ ((classify_zero_shot cap3 t3).all_scores.map Prod.fst).Perm canonicalCategories := by
  have hfb : ∀ t : String,
      (classify_fallback t).all_scores.map Prod.fst = canonicalCategories := by
    intro t
    rw [fallback_all_scores, map_fst_normalizeScores, map_fst_rawScores]
  refine ⟨hfb t1, ?_, ?_⟩
  · cases he : cap2 t2 with
    | ok probs =>
      simp only [classify_similarity, he]
      simp [OFFENCE_CATEGORIES, canonicalCategories]
    | error e =>
      simp only [classify_similarity, he]
      exact hfb t2
  · obtain ⟨rl, rs⟩ := raw
    dsimp only at hperm hlen
    obtain ⟨l0, ls, rfl⟩ : ∃ l0 ls, rl = l0 :: ls := by
      cases rl with
      | nil =>
        have := hperm.length_eq
        simp [ZERO_SHOT_LABELS] at this
      | cons a as => exact ⟨a, as, rfl⟩
    obtain ⟨s0, ss, rfl⟩ : ∃ s0 ss, rs = s0 :: ss := by
      cases rs with
      | nil => simp at hlen
      | cons a as => exact ⟨a, as, rfl⟩
    have hnodup : ((l0 :: ls).map labelMapping).Nodup := by
      have hmap := hperm.map labelMapping
      have hzl : (ZERO_SHOT_LABELS.map labelMapping).Nodup := by decide
      exact hmap.nodup_iff.mpr hzl
    have hkeys :
        ((((l0 :: ls).zip (s0 :: ss)).map fun p => (labelMapping p.1, p.2)).map Prod.fst)
          = (l0 :: ls).map labelMapping := by
      rw [List.map_map]
      have hcomp : (Prod.fst ∘ fun p : String × ℚ => (labelMapping p.1, p.2))
          = fun p : String × ℚ => labelMapping p.1 := rfl
      have h2 : (((l0 :: ls).zip (s0 :: ss)).map fun p : String × ℚ => labelMapping p.1)
          = (((l0 :: ls).zip (s0 :: ss)).map Prod.fst).map labelMapping := by
        rw [List.map_map]; rfl
      rw [hcomp, h2, List.map_fst_zip _ _ (le_of_eq hlen)]
    have hdict := dictOfPairs_eq_self
      (((l0 :: ls).zip (s0 :: ss)).map fun p => (labelMapping p.1, p.2))
      (by rw [hkeys]; exact hnodup)
    have heq : ZERO_SHOT_LABELS.map labelMapping = canonicalCategories := by decide
    simp only [classify_zero_shot, h3, zsBuild]
    rw [hdict, hkeys, ← heq]
    exact hperm.map labelMapping

/-- Claim C5 witness: the empty string under all three strategies, the
zero-shot capability returning scores for the six candidate phrases. -/
theorem all_scores_six_categories_witness :
    (classify_fallback "").all_scores.map Prod.fst = canonicalCategories
    ∧ (classify_similarity (fun _ => .ok fun _ => 1/6) "").all_scores.map Prod.fst
        = canonicalCategories
    ∧ ((classify_zero_shot
          (fun _ => .ok ⟨ZERO_SHOT_LABELS, [1/6, 1/6, 1/6, 1/6, 1/6, 1/6]⟩)
          "").all_scores.map Prod.fst).Perm canonicalCategories :=
  all_scores_six_categories "" (fun _ => .ok fun _ => 1/6) ""
    (fun _ => .ok ⟨ZERO_SHOT_LABELS, [1/6, 1/6, 1/6, 1/6, 1/6, 1/6]⟩) ""
    ⟨ZERO_SHOT_LABELS, [1/6, 1/6, 1/6, 1/6, 1/6, 1/6]⟩
    rfl (List.Perm.refl _) (by decide)

/-- A classification result whose label attains the maximum of its score
distribution (the meaning of "label equals the argmax of allScores",
stated tie-insensitively). -/
def isArgmaxResult (r : ClassificationResult) : Prop :=
  (r.label, r.confidence) ∈ r.all_scores ∧ ∀ p ∈ r.all_scores, p.2 ≤ r.confidence

/-- Claim C1: every classification result's label attains the maximum of
its `all_scores` distribution — for the fallback strategy away from the
override, for the similarity strategy, and for the zero-shot strategy
under the external pipeline's contract (scores for the six candidate
phrases, sorted descending) — except that when the fallback's normalized
top score is below 0.2 the label is forced to "Other" with confidence
fixed at 0.5 while `all_scores` stays the normalized keyword
distribution. -/
theorem label_is_argmax_except_override
    (t1 t2 ts tz : String)
    (capS : String → Except String (String → ℚ)) (probs : String → ℚ)
    (capZ : String → Except String ZSRaw) (raw : ZSRaw)
    (h1 : ¬ (pyMaxPair (normalizeScores (rawScores t1))).2 < 1/5)
    (h2 : (pyMaxPair (normalizeScores (rawScores t2))).2 < 1/5)
    (hS : capS ts = .ok probs)
    (hZ : capZ tz = .ok raw)
    (hperm : raw.labels.Perm ZERO_SHOT_LABELS)
    (hlen : raw.labels.length = raw.scores.length)
    (hsorted : raw.scores.Sorted fun a b => b ≤ a) :
    isArgmaxResult (classify_fallback t1)
    ∧ ((classify_fallback t2).label = "Other"
        ∧ (classify_fallback t2).confidence = 1/2
        ∧ (classify_fallback t2).all_scores = normalizeScores (rawScores t2))
    ∧ isArgmaxResult (classify_similarity capS ts)
    ∧ isArgmaxResult (classify_zero_shot capZ tz) := by
  refine ⟨?_, ?_, ?_, ?_⟩
  · have hfb : classify_fallback t1 =
        ⟨(pyMaxPair (normalizeScores (rawScores t1))).1,
         (pyMaxPair (normalizeScores (rawScores t1))).2,
         normalizeScores (rawScores t1)⟩ := by
      simp only [classify_fallback]
      rw [if_neg h1]
    rw [hfb, isArgmaxResult]
    refine ⟨?_, ?_⟩
    · show ((pyMaxPair _).1, (pyMaxPair _).2) ∈ _
      rw [Prod.mk.eta]
      exact pyMaxPair_mem _ (fallback_scores_ne_nil t1)
    · intro p hp
      exact pyMaxPair_ge _ p hp
  · have hov : classify_fallback t2 = ⟨"Other", 1/2, normalizeScores (rawScores t2)⟩ := by
      simp only [classify_fallback]
      rw [if_pos h2]
    exact ⟨by rw [hov], by rw [hov], by rw [hov]⟩
  · simp only [classify_similarity, hS, isArgmaxResult]
    refine ⟨?_, ?_⟩
    · show ((pyMaxPair _).1, (pyMaxPair _).2) ∈ _
      rw [Prod.mk.eta]
      exact pyMaxPair_mem _ (by simp [OFFENCE_CATEGORIES])
    · intro p hp
      exact pyMaxPair_ge _ p hp
  · obtain ⟨rl, rs⟩ := raw
    dsimp only at hperm hlen hsorted
    obtain ⟨l0, ls, rfl⟩ : ∃ l0 ls, rl = l0 :: ls := by
      cases rl with
      | nil =>
        have := hperm.length_eq
        simp [ZERO_SHOT_LABELS] at this
      | cons a as => exact ⟨a, as, rfl⟩
    obtain ⟨s0, ss, rfl⟩ : ∃ s0 ss, rs = s0 :: ss := by
      cases rs with
      | nil => simp at hlen
      | cons a as => exact ⟨a, as, rfl⟩
    have hnodup : ((l0 :: ls).map labelMapping).Nodup := by
      have hmap := hperm.map labelMapping
      have hzl : (ZERO_SHOT_LABELS.map labelMapping).Nodup := by decide
      exact hmap.nodup_iff.mpr hzl
    have hkeys :
        ((((l0 :: ls).zip (s0 :: ss)).map fun p => (labelMapping p.1, p.2)).map Prod.fst)
          = (l0 :: ls).map labelMapping := by
      rw [List.map_map]
      have hcomp : (Prod.fst ∘ fun p : String × ℚ => (labelMapping p.1, p.2))
          = fun p : String × ℚ => labelMapping p.1 := rfl
      have h2' : (((l0 :: ls).zip (s0 :: ss)).map fun p : String × ℚ => labelMapping p.1)
          = (((l0 :: ls).zip (s0 :: ss)).map Prod.fst).map labelMapping := by
        rw [List.map_map]; rfl
      rw [hcomp, h2', List.map_fst_zip _ _ (le_of_eq hlen)]
    have hdict := dictOfPairs_eq_self
      (((l0 :: ls).zip (s0 :: ss)).map fun p => (labelMapping p.1, p.2))
      (by rw [hkeys]; exact hnodup)
    simp only [classify_zero_shot, hZ, zsBuild]
    rw [hdict, isArgmaxResult]
    refine ⟨?_, ?_⟩
    · simp [List.zip_cons_cons]
    · intro p hp
      obtain ⟨q, hq, rfl⟩ := List.mem_map.mp hp
      have hq2 : q.2 ∈ s0 :: ss := (List.of_mem_zip hq).2
      rcases List.mem_cons.mp hq2 with h | h
      · exact le_of_eq h
      · exact (List.sorted_cons.mp hsorted).1 q.2 h

/-- Claim C1 witness: a text where the top normalized keyword score is 1
(no override), a text where it falls below 0.2 (override), a successful
similarity capability, and a successful sorted zero-shot response. -/
theorem label_is_argmax_except_override_witness :
    isArgmaxResult (classify_fallback "theft stolen")
    ∧ ((classify_fallback "robbery burglary larceny murder manslaughter beating violence hacking phishing ransomware cyber stalking deception forgery embezzlement intimidation bullying miscellaneous").label = "Other"
        ∧ (classify_fallback "robbery burglary larceny murder manslaughter beating violence hacking phishing ransomware cyber stalking deception forgery embezzlement intimidation bullying miscellaneous").confidence = 1/2
        ∧ (classify_fallback "robbery burglary larceny murder manslaughter beating violence hacking phishing ransomware cyber stalking deception forgery embezzlement intimidation bullying miscellaneous").all_scores
            = normalizeScores (rawScores "robbery burglary larceny murder manslaughter beating violence hacking phishing ransomware cyber stalking deception forgery embezzlement intimidation bullying miscellaneous"))
    ∧ isArgmaxResult (classify_similarity (fun _ => .ok fun _ => 1/6) "my complaint")
    ∧ isArgmaxResult (classify_zero_shot
        (fun _ => .ok ⟨ZERO_SHOT_LABELS, [6/10, 5/10, 4/10, 3/10, 2/10, 1/10]⟩)
        "my complaint") :=
  label_is_argmax_except_override "theft stolen"
    "robbery burglary larceny murder manslaughter beating violence hacking phishing ransomware cyber stalking deception forgery embezzlement intimidation bullying miscellaneous"
    "my complaint" "my complaint"
    (fun _ => .ok fun _ => 1/6) (fun _ => 1/6)
    (fun _ => .ok ⟨ZERO_SHOT_LABELS, [6/10, 5/10, 4/10, 3/10, 2/10, 1/10]⟩)
    ⟨ZERO_SHOT_LABELS, [6/10, 5/10, 4/10, 3/10, 2/10, 1/10]⟩
    (by with_unfolding_all decide) (by with_unfolding_all decide)
    rfl rfl (List.Perm.refl _) (by decide) (by with_unfolding_all decide)

end FIR
